import Mathlib

/-!
Verification of the Roundus OAuth2 PKCE relay and now-playing client.

The definitions below are a shallow embedding of the TypeScript sources:
  - the PKCE generator (generateCodeChallenge in src/App.tsx and
    src/utils/spotify.ts, generateRandomString in src/App.tsx,
    generateCodeVerifier in src/utils/spotify.ts);
  - the Express server routes /callback, /exchange-token and /current-track;
  - the client token helpers refreshAccessToken and getCurrentlyPlaying from
    src/utils/spotify.ts;
  - the React lifecycle around validateAndFetchTrack and the 30 second
    polling interval in src/App.tsx.

Machine integers are modelled as Nat with explicit reduction modulo 2 ^ 32
where the hash computation overflows.  Network effects are modelled by
passing the provider behaviour as an explicit argument and by recording the
outbound requests a handler would issue in its result value.
-/

/- ## SHA-256, exactly the digest both challenge derivations compute
   (window.crypto.subtle.digest in App.tsx, CryptoJS.SHA256 in spotify.ts). -/

/-- Reduction modulo 2 ^ 32, the word size of SHA-256 arithmetic. -/
def w32 (x : Nat) : Nat := x % 4294967296

/-- Right rotation of a 32 bit word. -/
def rotr32 (n x : Nat) : Nat := w32 (x / 2 ^ n + x % 2 ^ n * 2 ^ (32 - n))

def bigSigma0 (x : Nat) : Nat := rotr32 2 x ^^^ rotr32 13 x ^^^ rotr32 22 x

def bigSigma1 (x : Nat) : Nat := rotr32 6 x ^^^ rotr32 11 x ^^^ rotr32 25 x

def smallSigma0 (x : Nat) : Nat := rotr32 7 x ^^^ rotr32 18 x ^^^ x / 2 ^ 3

def smallSigma1 (x : Nat) : Nat := rotr32 17 x ^^^ rotr32 19 x ^^^ x / 2 ^ 10

/-- The 64 SHA-256 round constants, in decimal. -/
def sha256K : List Nat :=
  [1116352408, 1899447441, 3049323471, 3921009573,
   961987163, 1508970993, 2453635748, 2870763221,
   3624381080, 310598401, 607225278, 1426881987,
   1925078388, 2162078206, 2614888103, 3248222580,
   3835390401, 4022224774, 264347078, 604807628,
   770255983, 1249150122, 1555081692, 1996064986,
   2554220882, 2821834349, 2952996808, 3210313671,
   3336571891, 3584528711, 113926993, 338241895,
   666307205, 773529912, 1294757372, 1396182291,
   1695183700, 1986661051, 2177026350, 2456956037,
   2730485921, 2820302411, 3259730800, 3345764771,
   3516065817, 3600352804, 4094571909, 275423344,
   430227734, 506948616, 659060556, 883997877,
   958139571, 1322822218, 1537002063, 1747873779,
   1955562222, 2024104815, 2227730452, 2361852424,
   2428436474, 2756734187, 3204031479, 3329325298]

/-- The initial SHA-256 state, in decimal. -/
def sha256InitH : List Nat :=
  [1779033703, 3144134277, 1013904242, 2773480762,
   1359893119, 2600822924, 528734635, 1541459225]

/-- Big-endian byte expansion of a value into a fixed number of bytes. -/
def beBytes : Nat → Nat → List Nat
  | 0, _ => []
  | k + 1, v => beBytes k (v / 256) ++ [v % 256]

/-- SHA-256 message padding to a multiple of 64 bytes. -/
def sha256Pad (msg : List Nat) : List Nat :=
  msg ++ [0x80] ++ List.replicate ((64 - (msg.length + 9) % 64) % 64) 0 ++ beBytes 8 (8 * msg.length)

/-- Group bytes into big-endian 32 bit words. -/
def sha256Words : List Nat → List Nat
  | b0 :: b1 :: b2 :: b3 :: rest =>
      (b0 * 16777216 + b1 * 65536 + b2 * 256 + b3) :: sha256Words rest
  | _ => []

/-- Next word of the SHA-256 message schedule. -/
def nextWord (w : List Nat) : Nat :=
  let n := w.length
  w32 (w.getD (n - 16) 0 + smallSigma0 (w.getD (n - 15) 0) + w.getD (n - 7) 0 +
    smallSigma1 (w.getD (n - 2) 0))

/-- Extend the message schedule by the given number of words. -/
def buildSchedule (w : List Nat) : Nat → List Nat
  | 0 => w
  | k + 1 => buildSchedule (w ++ [nextWord w]) k

/-- One SHA-256 compression round on the eight word working state. -/
def compressStep (st : List Nat) (kw : Nat × Nat) : List Nat :=
  match st with
  | [a, b, c, d, e, f, g, h] =>
      let S1 := bigSigma1 e
      let ch := (e &&& f) ^^^ ((4294967295 - e) &&& g)
      let temp1 := w32 (h + S1 + ch + kw.1 + kw.2)
      let S0 := bigSigma0 a
      let maj := (a &&& b) ^^^ (a &&& c) ^^^ (b &&& c)
      let temp2 := w32 (S0 + maj)
      [w32 (temp1 + temp2), a, b, c, w32 (d + temp1), e, f, g]
  | other => other

/-- Process one 64 byte chunk. -/
def processChunk (h : List Nat) (chunk : List Nat) : List Nat :=
  let w := buildSchedule (sha256Words chunk) 48
  let st := (sha256K.zip w).foldl compressStep h
  (h.zip st).map (fun p => w32 (p.1 + p.2))

/-- Fold over the 64 byte chunks of the padded message.  The first argument
is plain fuel so that the recursion is structural; it is instantiated with
the message length, which bounds the number of chunks. -/
def processBlocks : Nat → List Nat → List Nat → List Nat
  | _, h, [] => h
  | 0, h, _ => h
  | fuel + 1, h, l => processBlocks fuel (processChunk h (l.take 64)) (l.drop 64)

/-- Big-endian bytes of one state word. -/
def wordBytes (w : Nat) : List Nat :=
  [w / 16777216 % 256, w / 65536 % 256, w / 256 % 256, w % 256]

/-- SHA-256 of a byte sequence, as the 32 digest bytes. -/
def sha256 (msg : List Nat) : List Nat :=
  let padded := sha256Pad msg
  (processBlocks padded.length sha256InitH padded).flatMap wordBytes

/-- UTF-8 bytes of a character (TextEncoder in App.tsx; CryptoJS applies the
same encoding to the verifier string). -/
def utf8EncodeChar (c : Char) : List Nat :=
  let n := c.toNat
  if n < 128 then [n]
  else if n < 2048 then [192 + n / 64, 128 + n % 64]
  else if n < 65536 then [224 + n / 4096, 128 + n / 64 % 64, 128 + n % 64]
  else [240 + n / 262144, 128 + n / 4096 % 64, 128 + n / 64 % 64, 128 + n % 64]

/-- UTF-8 bytes of a string. -/
def utf8Encode (s : String) : List Nat := s.data.flatMap utf8EncodeChar

/- ## Base64 and the PKCE challenge pipeline -/

/-- The standard Base64 alphabet used by btoa and CryptoJS.enc.Base64. -/
def base64StdAlphabet : List Char :=
  "ABCDEFGHIJKLMNOPQRSTUVWXYZabcdefghijklmnopqrstuvwxyz0123456789+/".toList

/-- The URL-safe Base64 alphabet, for the spec level description of the
challenge. -/
def base64UrlAlphabet : List Char :=
  "ABCDEFGHIJKLMNOPQRSTUVWXYZabcdefghijklmnopqrstuvwxyz0123456789-_".toList

/-- Base64 encoding of a byte list over a given 64 character alphabet,
with = padding. -/
def base64EncodeWith (alpha : List Char) : List Nat → List Char
  | [] => []
  | [b1] => [alpha.getD (b1 / 4) 'A', alpha.getD (b1 % 4 * 16) 'A', '=', '=']
  | [b1, b2] =>
      [alpha.getD (b1 / 4) 'A', alpha.getD (b1 % 4 * 16 + b2 / 16) 'A',
       alpha.getD (b2 % 16 * 4) 'A', '=']
  | b1 :: b2 :: b3 :: rest =>
      alpha.getD (b1 / 4) 'A' :: alpha.getD (b1 % 4 * 16 + b2 / 16) 'A' ::
      alpha.getD (b2 % 16 * 4 + b3 / 64) 'A' :: alpha.getD (b3 % 64) 'A' ::
      base64EncodeWith alpha rest

/-- String.replace with a single character pattern, as used by the
.replace calls of generateCodeChallenge. -/
def replaceChar (p r : Char) (s : String) : String :=
  String.mk (s.data.map (fun c => if c = p then r else c))

/-- Strip all trailing = characters, the .replace of the =+$ pattern with
the empty string. -/
def stripTrailingEq (s : String) : String :=
  String.mk ((s.data.reverse.dropWhile (fun c => c == '=')).reverse)

/-- The challenge derivation of src/App.tsx lines 22-32 and
src/utils/spotify.ts lines 14-20: Base64 of the SHA-256 digest of the
UTF-8 bytes of the verifier, then plus to minus, slash to underscore, and
trailing = stripped.  Both sources compute this same function. -/
def generateCodeChallenge (verifier : String) : String :=
  stripTrailingEq (replaceChar '/' '_' (replaceChar '+' '-'
    (String.mk (base64EncodeWith base64StdAlphabet (sha256 (utf8Encode verifier))))))

/-- The comparison point for the refinement part of C3, following the words
of the spec: the URL-safe Base64 encoding of the SHA-256 digest with
padding stripped. -/
def derive_challenge (verifier : String) : String :=
  stripTrailingEq (String.mk (base64EncodeWith base64UrlAlphabet (sha256 (utf8Encode verifier))))

/-- The combined character substitution plus to minus and slash to
underscore. -/
def urlSubstChar (c : Char) : Char :=
  if c = '+' then '-' else if c = '/' then '_' else c

/- ## Verifier generators -/

/-- The alphabet of generateRandomString in src/App.tsx lines 13-20. -/
def possibleChars : String :=
  "ABCDEFGHIJKLMNOPQRSTUVWXYZabcdefghijklmnopqrstuvwxyz0123456789"

/-- generateRandomString from src/App.tsx lines 13-20.  The random draws of
Math.floor of Math.random times possible.length are modelled by the
function rand, reduced modulo the alphabet size, which is exactly the
range of the floor expression. -/
def generateRandomString (length : Nat) (rand : Nat → Nat) : String :=
  String.mk ((List.range length).map
    (fun i => possibleChars.data.getD (rand i % possibleChars.data.length) 'A'))

/-- The lowercase hex digits of the CryptoJS hex encoder. -/
def hexDigits : List Char := "0123456789abcdef".toList

/-- Two lowercase hex digits of one byte. -/
def byteToHex (b : Nat) : List Char :=
  [hexDigits.getD (b / 16) '0', hexDigits.getD (b % 16) '0']

/-- generateCodeVerifier from src/utils/spotify.ts lines 8-12:
CryptoJS.lib.WordArray.random(32).toString(), that is the lowercase hex
encoding of 32 random bytes.  The random bytes are modelled by the
function randBytes reduced modulo 256. -/
def generateCodeVerifier (randBytes : Nat → Nat) : String :=
  String.mk (((List.range 32).map (fun i => randBytes i % 256)).flatMap byteToHex)

/-- URL-safe characters: the RFC 3986 unreserved set, which contains both
verifier alphabets. -/
def isUrlSafeChar (c : Char) : Bool :=
  c.isAlphanum || c == '-' || c == '.' || c == '_' || c == '~'

/- ## Server model (the Express file of the repository) -/

/-- JavaScript truthiness of an optional query or body string: undefined
and the empty string are falsy. -/
def jsTruthy : Option String → Bool
  | none => false
  | some s => !(s == "")

/-- The URI unreserved set of encodeURIComponent. -/
def isUriUnreserved (c : Char) : Bool :=
  c.isAlphanum || c == '-' || c == '_' || c == '.' || c == '!' || c == '~' ||
    c == '*' || c.toNat == 39 || c == '(' || c == ')'

/-- Uppercase hex digits of percent escapes. -/
def hexUpperDigits : List Char := "0123456789ABCDEF".toList

/-- Percent escape of one byte. -/
def percentEncodeByte (b : Nat) : List Char :=
  ['%', hexUpperDigits.getD (b / 16) '0', hexUpperDigits.getD (b % 16) '0']

/-- encodeURIComponent as called by the /callback error branch. -/
def encodeURIComponent (s : String) : String :=
  String.mk (s.data.flatMap (fun c =>
    if isUriUnreserved c then [c] else (utf8EncodeChar c).flatMap percentEncodeByte))

/-- The outward move a server route makes.  A route that answers a request
locally produces redirect or jsonStatus; tokenEndpointPost is the outbound
network request of the exchange route to the provider token endpoint, so a
result built with redirect or jsonStatus involves no network call. -/
inductive ServerAction where
  | redirect (url : String)
  | jsonStatus (status : Nat) (errMsg : String)
  | tokenEndpointPost (params : List (String × String))
deriving DecidableEq

/-- The GET /callback route, Express file lines 49-69.  It reads the code
and error query parameters (a state parameter is also read but unused) and
answers with a redirect in every case; it performs no outbound request. -/
def callbackHandler (frontendUrl : String) (code errorParam : Option String) : ServerAction :=
  if jsTruthy errorParam then
    .redirect (frontendUrl ++ "?error=" ++ encodeURIComponent (errorParam.getD ""))
  else if !(jsTruthy code) then
    .redirect (frontendUrl ++ "?error=missing_code")
  else
    .redirect (frontendUrl ++ "?code=" ++ code.getD "")

/-- The POST /exchange-token route of the Express file, lines 72-118, up to
its first outbound move: the 400 guard on the body parameters, then the
form encoded POST to the provider token endpoint. -/
def exchangeTokenHandler (clientId redirectUri : String)
    (code code_verifier : Option String) : ServerAction :=
  if !(jsTruthy code) || !(jsTruthy code_verifier) then
    .jsonStatus 400 "Missing code or code_verifier in request body"
  else
    .tokenEndpointPost
      [("grant_type", "authorization_code"), ("code", code.getD ""),
       ("redirect_uri", redirectUri), ("client_id", clientId),
       ("code_verifier", code_verifier.getD "")]

/- ## Provider payloads and the /current-track route -/

structure SpotifyImage where
  url : String
deriving DecidableEq

structure SpotifyArtist where
  name : String
deriving DecidableEq

structure SpotifyAlbum where
  name : String
  images : List SpotifyImage
deriving DecidableEq

structure SpotifyItem where
  name : String
  artists : List SpotifyArtist
  album : SpotifyAlbum
deriving DecidableEq

/-- The currently-playing payload body: response.data of the provider call,
possibly with no item. -/
structure PlayingPayload where
  item : Option SpotifyItem
  is_playing : Bool
deriving DecidableEq

/-- Result of one axios request: a 2xx response with its status and parsed
body, a thrown error carrying a response status, or a transport failure
with no response at all. -/
inductive SpotifyApiResult where
  | success (status : Nat) (data : Option PlayingPayload)
  | httpError (status : Nat)
  | networkError
deriving DecidableEq

/-- The track projection served by /current-track and rendered by App.tsx. -/
structure Track where
  name : String
  artist : String
  album : String
  albumArt : String
  isPlaying : Bool
deriving DecidableEq

/-- The response body construction of the /current-track route, Express
file lines 143-149.  The JavaScript expressions item.artists[0].name and
item.album.images[0].url throw a TypeError when the corresponding array is
empty; the thrown case is the none result. -/
def buildTrackJson (item : SpotifyItem) (is_playing : Bool) : Option Track :=
  match item.artists.get? 0, item.album.images.get? 0 with
  | some a, some img =>
      some { name := item.name, artist := a.name, album := item.album.name,
             albumArt := img.url, isPlaying := is_playing }
  | _, _ => none

/-- What /current-track answers once the provider call resolved. -/
inductive TrackResponse where
  | ok (t : Track)
  | noContent
  | errorStatus (status : Nat)
deriving DecidableEq

/-- The response mapping of the /current-track route, Express file lines
127-154: 204 or an empty body or a missing item answer 204; a built track
answers 200; a TypeError thrown while building the body reaches the catch
with no response status attached and answers the generic 500; axios errors
propagate the provider status when present and 500 otherwise. -/
def processCurrentlyPlaying (r : SpotifyApiResult) : TrackResponse :=
  match r with
  | .success status data =>
      match data with
      | none => .noContent
      | some payload =>
          if status = 204 then .noContent
          else
            match payload.item with
            | none => .noContent
            | some item =>
                match buildTrackJson item payload.is_playing with
                | some t => .ok t
                | none => .errorStatus 500
  | .httpError status => .errorStatus status
  | .networkError => .errorStatus 500

/-- Split a character list at every occurrence of the separator, the
semantics of the JavaScript String.split with a single character
separator. -/
def splitCharAux (sep : Char) : List Char → List Char → List (List Char)
  | [], acc => [acc.reverse]
  | c :: cs, acc =>
      if c = sep then acc.reverse :: splitCharAux sep cs []
      else splitCharAux sep cs (c :: acc)

/-- JavaScript split on a single space. -/
def jsSplitSpace (s : String) : List String :=
  (splitCharAux ' ' s.data []).map String.mk

/-- The bearer token extraction of the /current-track route, Express file
line 122: the second space separated component of the Authorization
header; an absent header, a missing component or an empty component are
all falsy and yield none. -/
def extractToken (auth : Option String) : Option String :=
  match auth with
  | none => none
  | some h =>
      match (jsSplitSpace h).get? 1 with
      | none => none
      | some t => if t = "" then none else some t

/-- Whether an Authorization header value carries a bearer token in the
usual sense: the Bearer scheme word followed by a nonempty token.  This is
the spec level reading used to state C10. -/
def carriesBearerToken (auth : Option String) : Bool :=
  match auth with
  | none => false
  | some h => (h.take 7 == "Bearer ") && decide (7 < h.length)

/-- Observable outcome of the GET /current-track route: either the local
401 answered with no outbound request, or the provider call made with the
extracted bearer token together with the mapped response. -/
inductive CurrentTrackResult where
  | localUnauthorized
  | viaProvider (bearerToken : String) (response : TrackResponse)
deriving DecidableEq

/-- The GET /current-track route, Express file lines 121-155.  The provider
behaviour is the function provider from the bearer token sent to the axios
result. -/
def currentTrackHandler (auth : Option String)
    (provider : String → SpotifyApiResult) : CurrentTrackResult :=
  match extractToken auth with
  | none => .localUnauthorized
  | some tok => .viaProvider tok (processCurrentlyPlaying (provider tok))

/- ## Client token helpers (src/utils/spotify.ts) -/

/-- The localStorage keys src/utils/spotify.ts reads and writes. -/
structure SpotifyStore where
  access_token : Option String
  refresh_token : Option String
  token_expiry : Option String
  code_verifier : Option String
deriving DecidableEq

/-- A provider token response to a refresh request. -/
structure RefreshResponse where
  access_token : String
  expires_in : Nat
  refresh_token : Option String
deriving DecidableEq

/-- refreshAccessToken from src/utils/spotify.ts lines 66-91.  With no
stored refresh token it throws; on a provider failure (resp none) it
throws; on success it stores the new access token and expiry and returns
the new access token.  It never writes the refresh_token key, whatever the
response contains.  The store is returned alongside so that the error
paths exhibit it unchanged. -/
def refreshAccessToken (s : SpotifyStore) (now : Nat) (resp : Option RefreshResponse) :
    Except String String × SpotifyStore :=
  match s.refresh_token with
  | none => (.error "No refresh token available", s)
  | some _ =>
      match resp with
      | none => (.error "Failed to refresh token", s)
      | some r =>
          (.ok r.access_token,
           { s with access_token := some r.access_token,
                    token_expiry := some (toString (now + r.expires_in * 1000)) })

/-- Leading digit accumulation of parseInt. -/
def parseIntAux : List Char → Nat → Nat
  | [], acc => acc
  | c :: cs, acc =>
      if c.isDigit then parseIntAux cs (acc * 10 + (c.toNat - 48)) else acc

/-- JavaScript parseInt on the stored expiry strings: the leading decimal
digits, and none (NaN) when the string starts with no digit.  The store
only ever holds pure digit strings here, written as String of a number. -/
def jsParseInt (s : String) : Option Nat :=
  match s.data with
  | [] => none
  | c :: cs => if c.isDigit then some (parseIntAux cs (c.toNat - 48)) else none

/-- The expiry test of getCurrentlyPlaying line 102: token_expiry is truthy
and Date.now() exceeds parseInt of it.  A stored value that parses to no
number compares as NaN and the test is false. -/
def jsExpiryPassed (now : Nat) (expiry : Option String) : Bool :=
  match expiry with
  | none => false
  | some e =>
      match jsParseInt e with
      | none => false
      | some n => decide (now > n)

/-- Observable outcome of getCurrentlyPlaying: the returned or thrown
value, the final store, and the bearer tokens of the currently-playing
requests actually issued, in order. -/
structure GcpOutcome where
  result : Except String (Option PlayingPayload)
  store : SpotifyStore
  apiTokens : List String

/-- The try block of getCurrentlyPlaying, lines 111-137: the protected call
with the access_token value captured at entry, the 401 catch with one
refresh and one retry using the token the refresh returned, null on other
errors. -/
def gcpFetch (access_token : String) (s : SpotifyStore) (now : Nat)
    (refreshResp : Option RefreshResponse) (api : String → SpotifyApiResult) : GcpOutcome :=
  match api access_token with
  | .success _ data => ⟨.ok data, s, [access_token]⟩
  | .httpError status =>
      if status = 401 then
        match refreshAccessToken s now refreshResp with
        | (.error m, s2) => ⟨.error m, s2, [access_token]⟩
        | (.ok newToken, s2) =>
            match api newToken with
            | .success _ data => ⟨.ok data, s2, [access_token, newToken]⟩
            | _ => ⟨.error "Error after token refresh", s2, [access_token, newToken]⟩
      else ⟨.ok none, s, [access_token]⟩
  | .networkError => ⟨.ok none, s, [access_token]⟩

/-- getCurrentlyPlaying from src/utils/spotify.ts lines 93-138.  It reads
access_token and token_expiry at entry, throws with no stored token,
refreshes first when the expiry passed (rethrowing a refresh failure), and
then runs the protected call with the access_token value read at entry,
not with the token a pre-fetch refresh stored. -/
def getCurrentlyPlaying (s : SpotifyStore) (now : Nat) (refreshResp : Option RefreshResponse)
    (api : String → SpotifyApiResult) : GcpOutcome :=
  match s.access_token with
  | none => ⟨.error "No access token available", s, []⟩
  | some access_token =>
      if jsExpiryPassed now s.token_expiry then
        match refreshAccessToken s now refreshResp with
        | (.error m, s1) => ⟨.error m, s1, []⟩
        | (.ok _, s1) => gcpFetch access_token s1 now refreshResp api
      else gcpFetch access_token s now refreshResp api

/- ## App.tsx client state and the polling lifecycle -/

/-- The client state of App.tsx: the durable localStorage key
spotify_access_token, the ephemeral sessionStorage key
spotify_code_verifier, and the React state accessToken, isAuthenticated
and track.  The isLoading flag only drives the spinner and is outside the
spec scope. -/
structure ClientState where
  storedAccessToken : Option String
  storedVerifier : Option String
  accessToken : Option String
  isAuthenticated : Bool
  track : Option Track
deriving DecidableEq

/-- clearAuth from src/App.tsx lines 186-193: removes both storage keys and
resets the React state, regardless of the prior state. -/
def clearAuth (_s : ClientState) : ClientState :=
  { storedAccessToken := none, storedVerifier := none, accessToken := none,
    isAuthenticated := false, track := none }

/-- The response a single /current-track fetch of App.tsx resolves to. -/
inductive FetchOutcome where
  | ok (contentTypeJson : Bool) (body : Option Track)
  | status204
  | status401
  | otherStatus (status : Nat)
  | networkFailure
deriving DecidableEq

/-- validateAndFetchTrack from src/App.tsx lines 119-184, as a function of
the token argument, the outcome of the single fetch it performs, and the
prior client state.  The second component counts the protected calls made:
0 when the token guard fails, 1 otherwise — the function never retries.
A 401 runs clearAuth and returns; 204 keeps authentication and clears the
track; any other non-2xx status and any network failure throw into the
catch, which runs clearAuth; a 2xx response stores the track body exactly
when it is JSON with a truthy name field. -/
def validateAndFetchTrack (token : Option String) (outcome : FetchOutcome) (s : ClientState) :
    ClientState × Nat :=
  match token with
  | none => (clearAuth s, 0)
  | some _ =>
      match outcome with
      | .status401 => (clearAuth s, 1)
      | .status204 => ({ s with track := none, isAuthenticated := true }, 1)
      | .otherStatus _ => (clearAuth s, 1)
      | .networkFailure => (clearAuth s, 1)
      | .ok ctJson body =>
          if ctJson then
            match body with
            | some d =>
                if !(d.name == "") then ({ s with track := some d, isAuthenticated := true }, 1)
                else ({ s with track := none, isAuthenticated := true }, 1)
            | none => ({ s with track := none, isAuthenticated := true }, 1)
          else ({ s with track := none, isAuthenticated := true }, 1)

/-- The App component state relevant to the polling effect of src/App.tsx
lines 101-117: the client state, whether the component is mounted, and
whether the 30 second interval is currently registered. -/
structure PollState where
  client : ClientState
  mounted : Bool
  timerActive : Bool
deriving DecidableEq

/-- The polling effect of src/App.tsx lines 101-117 after its dependencies
changed: the cleanup clears any previous interval, and a new interval is
registered exactly when the component is mounted, isAuthenticated holds
and an access token is present.  When the dependencies did not change the
effect is not re-run, but re-applying it is the identity in that case, so
every step below applies it. -/
def applyPollingEffect (p : PollState) : PollState :=
  { p with timerActive := p.mounted && p.client.isAuthenticated && p.client.accessToken.isSome }

/-- The success path of exchangeCodeForToken, src/App.tsx lines 63-76: the
session verifier is removed, the access token stored, and the
authenticated state set. -/
def authSuccess (s : ClientState) (t : String) : ClientState :=
  { s with storedAccessToken := some t, storedVerifier := none,
           accessToken := some t, isAuthenticated := true }

/-- The events the polling lifecycle reacts to: an interval tick resolving
with a fetch outcome, an authentication success, the Disconnect click, and
component teardown. -/
inductive PollEvent where
  | tick (outcome : FetchOutcome)
  | authenticate (token : String)
  | disconnect
  | unmount
deriving DecidableEq

def isAuthEvent : PollEvent → Bool
  | .authenticate _ => true
  | _ => false

/-- A tick event actually fires a poll exactly when the component is
mounted and the interval is registered. -/
def tickFires (p : PollState) (e : PollEvent) : Bool :=
  match e with
  | .tick _ => p.mounted && p.timerActive
  | _ => false

/-- One step of the polling lifecycle.  A tick that fires runs
validateAndFetchTrack on the current access token and then the effect
(its dependencies isAuthenticated and accessToken may have changed); a
tick with no registered interval is a no-op.  Authentication success and
Disconnect update the client state and re-run the effect.  Teardown runs
the effect cleanup, clearing the interval. -/
def pollStep (p : PollState) (e : PollEvent) : PollState :=
  match e with
  | .tick outcome =>
      if p.mounted && p.timerActive then
        applyPollingEffect
          { p with client := (validateAndFetchTrack p.client.accessToken outcome p.client).1 }
      else p
  | .authenticate t => applyPollingEffect { p with client := authSuccess p.client t }
  | .disconnect => applyPollingEffect { p with client := clearAuth p.client }
  | .unmount => { p with mounted := false, timerActive := false }

/- ## Concrete instances used by witnesses and counterexamples -/

/-- A store holding a full token set and a pending verifier. -/
def c1ExStore : SpotifyStore :=
  { access_token := some "AT1", refresh_token := some "RT1",
    token_expiry := none, code_verifier := some "V" }

/-- A provider that answers 401 to the stale token and success to any
other token. -/
def c1ExApi : String → SpotifyApiResult :=
  fun t => if t = "AT1" then .httpError 401 else .success 200 (some ⟨none, false⟩)

/-- A refresh response carrying a fresh access token and no refresh
token. -/
def c1ExRefresh : RefreshResponse :=
  { access_token := "AT2", expires_in := 3600, refresh_token := none }

/-- A provider item whose album has an empty images array. -/
def c2ExItem : SpotifyItem :=
  { name := "Song", artists := [{ name := "Artist" }],
    album := { name := "Album", images := [] } }

/-- A provider behaviour answering every request with the c2ExItem
payload. -/
def c2ExProvider : String → SpotifyApiResult :=
  fun _ => .success 200 (some { item := some c2ExItem, is_playing := true })

/-- A provider answering 401 to everything, used where only the fact that
the provider was contacted matters. -/
def const401Provider : String → SpotifyApiResult := fun _ => .httpError 401

/-- A mounted client state with a registered interval and live token. -/
def c8ExState : PollState :=
  { client := { storedAccessToken := some "AT", storedVerifier := none,
                accessToken := some "AT", isAuthenticated := true, track := none },
    mounted := true, timerActive := true }

/-- A store for the C9 witness: expired token set. -/
def c9ExStore : SpotifyStore :=
  { access_token := some "AT1", refresh_token := some "RT1",
    token_expiry := some "1000", code_verifier := none }

/-- A provider for the C9 witness answering success everywhere, so the
first and only request token is observable. -/
def c9ExApi : String → SpotifyApiResult :=
  fun _ => .success 200 (some ⟨none, true⟩)

/- ## Helper lemmas -/

theorem getD_mem {α : Type} (l : List α) (i : Nat) (d : α) (h : i < l.length) :
    l.getD i d ∈ l := by
  rw [List.getD_eq_getElem l d h]; exact List.getElem_mem h

theorem getD_mem_or_eq {α : Type} (l : List α) (i : Nat) (d : α) :
    l.getD i d ∈ l ∨ l.getD i d = d := by
  rcases Nat.lt_or_ge i l.length with h | h
  · exact Or.inl (getD_mem l i d h)
  · exact Or.inr (List.getD_eq_default l d h)

theorem urlSubstChar_alphabet (i : Nat) :
    urlSubstChar (base64StdAlphabet[i]?.getD 'A') = base64UrlAlphabet[i]?.getD 'A' := by
  rcases Nat.lt_or_ge i 64 with h | h
  · revert h; revert i; decide
  · rw [List.getElem?_eq_none (le_trans (by decide) h),
        List.getElem?_eq_none (le_trans (by decide) h)]
    decide

theorem urlSubstChar_pad : urlSubstChar '=' = '=' := by decide

theorem map_urlSubst_base64 : ∀ (l : List Nat),
    (base64EncodeWith base64StdAlphabet l).map urlSubstChar = base64EncodeWith base64UrlAlphabet l
  | [] => by simp [base64EncodeWith]
  | [b1] => by
      simp [base64EncodeWith, urlSubstChar_alphabet, urlSubstChar_pad]
  | [b1, b2] => by
      simp [base64EncodeWith, urlSubstChar_alphabet, urlSubstChar_pad]
  | b1 :: b2 :: b3 :: rest => by
      have ih := map_urlSubst_base64 rest
      simp [base64EncodeWith, urlSubstChar_alphabet, ih]

theorem replaceChar_comp (s : String) :
    replaceChar '/' '_' (replaceChar '+' '-' s) = String.mk (s.data.map urlSubstChar) := by
  have hfun : ((fun c => if c = '/' then '_' else c) ∘ fun c => if c = '+' then '-' else c) =
      urlSubstChar := by
    funext c
    by_cases h1 : c = '+'
    · subst h1; decide
    · simp [Function.comp, urlSubstChar, h1]
  simp [replaceChar, List.map_map, hfun]

theorem base64CharD_mem (alpha : List Char) (hA : 'A' ∈ alpha) (i : Nat) :
    alpha.getD i 'A' ∈ alpha := by
  rcases getD_mem_or_eq alpha i 'A' with h | h
  · exact h
  · rw [h]; exact hA

theorem base64_chars (alpha : List Char) (hA : 'A' ∈ alpha) :
    ∀ (l : List Nat), ∀ c ∈ base64EncodeWith alpha l, c ∈ alpha ∨ c = '='
  | [] => by intro c h; simp [base64EncodeWith] at h
  | [b1] => by
      intro c h
      simp only [base64EncodeWith, List.mem_cons, List.not_mem_nil, or_false] at h
      rcases h with h | h | h | h <;>
        first
          | exact Or.inl (h ▸ base64CharD_mem alpha hA _)
          | exact Or.inr h
  | [b1, b2] => by
      intro c h
      simp only [base64EncodeWith, List.mem_cons, List.not_mem_nil, or_false] at h
      rcases h with h | h | h | h <;>
        first
          | exact Or.inl (h ▸ base64CharD_mem alpha hA _)
          | exact Or.inr h
  | b1 :: b2 :: b3 :: rest => by
      intro c h
      simp only [base64EncodeWith, List.mem_cons] at h
      rcases h with h | h | h | h | h
      · exact Or.inl (h ▸ base64CharD_mem alpha hA _)
      · exact Or.inl (h ▸ base64CharD_mem alpha hA _)
      · exact Or.inl (h ▸ base64CharD_mem alpha hA _)
      · exact Or.inl (h ▸ base64CharD_mem alpha hA _)
      · exact base64_chars alpha hA rest c h

theorem mem_of_mem_stripTrailing {l : List Char} {c : Char}
    (h : c ∈ (l.reverse.dropWhile (fun c => c == '=')).reverse) : c ∈ l := by
  rw [List.mem_reverse] at h
  exact List.mem_reverse.mp (List.Sublist.mem h (List.dropWhile_sublist _))

/-- Sanity check of the hash and encoding pipeline against the published
SHA-256 test vector for the string test. -/
example : generateCodeChallenge "test" = "n4bQgYhMfWWaL-qgxVrQFaO_TxsrC4Is0V1sFbDwCgg" := by
  decide

/- ## C3 -/

/-- C3: challenge derivation is pure and deterministic — two calls on the
same verifier yield identical output equal to the URL-safe Base64 of the
SHA-256 digest of the verifier — and the output contains no plus, no
slash, and no trailing equals character. -/
theorem C3_derive_challenge_deterministic_urlsafe (v : String) :
    generateCodeChallenge v = generateCodeChallenge v ∧
    generateCodeChallenge v = derive_challenge v ∧
    (generateCodeChallenge v).data.all (fun c => !(c == '+') && !(c == '/')) = true ∧
    ((generateCodeChallenge v).data.getLast? == some '=') = false := by
  have hrefine : generateCodeChallenge v = derive_challenge v := by
    unfold generateCodeChallenge derive_challenge
    rw [replaceChar_comp]
    show stripTrailingEq (String.mk ((base64EncodeWith base64StdAlphabet
      (sha256 (utf8Encode v))).map urlSubstChar)) = _
    rw [map_urlSubst_base64]
  refine ⟨rfl, hrefine, ?_, ?_⟩
  · rw [hrefine]
    rw [List.all_eq_true]
    intro c hc
    have hc2 : c ∈ base64EncodeWith base64UrlAlphabet (sha256 (utf8Encode v)) :=
      mem_of_mem_stripTrailing hc
    have hmem := base64_chars base64UrlAlphabet (by decide) _ c hc2
    clear hc hc2
    rcases hmem with hm | hm
    · revert hm; revert c; decide
    · rw [hm]; decide
  · rw [hrefine]
    show ((((base64EncodeWith base64UrlAlphabet (sha256 (utf8Encode v))).reverse.dropWhile
      (fun c => c == '=')).reverse.getLast?) == some '=') = false
    rw [List.getLast?_reverse]
    rcases hh : ((base64EncodeWith base64UrlAlphabet (sha256 (utf8Encode v))).reverse.dropWhile
      (fun c => c == '=')).head? with _ | c
    · rfl
    · have hlast := List.head?_dropWhile_not (fun c => c == '=')
        (base64EncodeWith base64UrlAlphabet (sha256 (utf8Encode v))).reverse
      rw [hh] at hlast
      exact hlast

/- ## C7 -/

/-- C7: every verifier produced by either generator has length within
[43, 128] and consists only of URL-safe characters: generateRandomString
with the length 128 the login handler passes, and generateCodeVerifier,
whose hex output has length 64. -/
theorem C7_verifier_length_and_charset (rand randBytes : Nat → Nat) :
    43 ≤ (generateRandomString 128 rand).length ∧ (generateRandomString 128 rand).length ≤ 128 ∧
    (generateRandomString 128 rand).data.all isUrlSafeChar = true ∧
    43 ≤ (generateCodeVerifier randBytes).length ∧ (generateCodeVerifier randBytes).length ≤ 128 ∧
    (generateCodeVerifier randBytes).data.all isUrlSafeChar = true := by
  have hlen1 : (generateRandomString 128 rand).length = 128 := by
    show ((List.range 128).map _).length = 128
    rw [List.length_map, List.length_range]
  have hlen2 : (generateCodeVerifier randBytes).length = 64 := by
    have h2 : ∀ (l : List Nat), (l.flatMap byteToHex).length = 2 * l.length := by
      intro l
      induction l with
      | nil => rfl
      | cons x xs ih =>
          rw [List.flatMap_cons, List.length_append, ih]
          show 2 + 2 * xs.length = 2 * (xs.length + 1)
          omega
    show (((List.range 32).map (fun i => randBytes i % 256)).flatMap byteToHex).length = 64
    rw [h2, List.length_map, List.length_range]
  refine ⟨by omega, by omega, ?_, by omega, by omega, ?_⟩
  · rw [List.all_eq_true]
    intro c hc
    simp only [generateRandomString] at hc
    rw [List.mem_map] at hc
    obtain ⟨i, hi, hgi⟩ := hc
    clear hi
    rcases getD_mem_or_eq possibleChars.data (rand i % possibleChars.data.length) 'A' with h | h
    · rw [← hgi]
      revert h
      generalize possibleChars.data.getD (rand i % possibleChars.data.length) 'A' = c0
      revert c0; decide
    · rw [← hgi, h]; decide
  · rw [List.all_eq_true]
    intro c hc
    simp only [generateCodeVerifier] at hc
    rw [List.mem_flatMap] at hc
    obtain ⟨b, hb1, hb2⟩ := hc
    clear hb1
    have hd : c ∈ hexDigits ∨ c = '0' := by
      simp only [byteToHex, List.mem_cons, List.not_mem_nil, or_false] at hb2
      rcases hb2 with h | h
      · rcases getD_mem_or_eq hexDigits (b / 16) '0' with hm | hm
        · exact Or.inl (h ▸ hm)
        · exact Or.inr (h ▸ hm)
      · rcases getD_mem_or_eq hexDigits (b % 16) '0' with hm | hm
        · exact Or.inl (h ▸ hm)
        · exact Or.inr (h ▸ hm)
    clear hb2
    rcases hd with h | h
    · revert h; revert c; decide
    · rw [h]; decide

/- ## C4 -/

/-- C4: a token exchange request whose code or code_verifier is empty or
absent is answered with the local 400 missing parameter response; since
the only network performing result of the handler is the token endpoint
POST, no network call is made. -/
theorem C4_missing_params_rejected_before_network
    (clientId redirectUri : String) (code code_verifier : Option String)
    (h : code = none ∨ code = some "" ∨ code_verifier = none ∨ code_verifier = some "") :
    exchangeTokenHandler clientId redirectUri code code_verifier =
      ServerAction.jsonStatus 400 "Missing code or code_verifier in request body" := by
  rcases h with h | h | h | h <;> subst h <;>
    simp [exchangeTokenHandler, jsTruthy]

/-- Witness for C4 at a concrete request with the verifier absent. -/
theorem C4_missing_params_witness :
    exchangeTokenHandler "cid" "http://localhost:3000/callback" (some "XYZ") none =
      ServerAction.jsonStatus 400 "Missing code or code_verifier in request body" :=
  C4_missing_params_rejected_before_network "cid" "http://localhost:3000/callback"
    (some "XYZ") none (Or.inr (Or.inr (Or.inl rfl)))

/- ## C6 -/

/-- C6 as stated is false on the code: a provider redirect carrying both a
code and an error parameter is forwarded as an error redirect, not as a
redirect carrying the code as a query parameter, because the error branch
is checked first. -/
theorem C6_counterexample :
    callbackHandler "http://localhost:5176" (some "c") (some "e") =
      ServerAction.redirect "http://localhost:5176?error=e" ∧
    callbackHandler "http://localhost:5176" (some "c") (some "e") ≠
      ServerAction.redirect ("http://localhost:5176" ++ "?code=" ++ "c") := by
  exact ⟨rfl, by decide⟩

/-- C6 amended: the callback relay always answers with a redirect and in
particular never posts to the token endpoint; a redirect carrying a
truthy error parameter is forwarded as an error redirect even when a code
is also present, one carrying neither parameter is forwarded as the
missing_code error redirect, and one carrying a code and no error is
forwarded as a code redirect to the client application origin. -/
theorem C6_callback_forwarding (frontendUrl : String) (code errorParam : Option String) :
    (jsTruthy errorParam = true →
      callbackHandler frontendUrl code errorParam =
        ServerAction.redirect (frontendUrl ++ "?error=" ++
          encodeURIComponent (errorParam.getD ""))) ∧
    (jsTruthy errorParam = false → jsTruthy code = false →
      callbackHandler frontendUrl code errorParam =
        ServerAction.redirect (frontendUrl ++ "?error=missing_code")) ∧
    (jsTruthy errorParam = false → jsTruthy code = true →
      callbackHandler frontendUrl code errorParam =
        ServerAction.redirect (frontendUrl ++ "?code=" ++ code.getD "")) ∧
    (∀ params, callbackHandler frontendUrl code errorParam ≠
      ServerAction.tokenEndpointPost params) := by
  refine ⟨fun he => by simp [callbackHandler, he],
          fun he hc => by simp [callbackHandler, he, hc],
          fun he hc => by simp [callbackHandler, he, hc],
          fun params => by
            unfold callbackHandler
            split_ifs <;> simp⟩

/-- Witness for C6 at concrete redirects: a code with no error is
forwarded as a code redirect, and an error alone as an error redirect. -/
theorem C6_callback_forwarding_witness :
    callbackHandler "http://localhost:5176" (some "abc") none =
      ServerAction.redirect ("http://localhost:5176" ++ "?code=" ++
        (some "abc" : Option String).getD "") ∧
    callbackHandler "http://localhost:5176" none (some "access_denied") =
      ServerAction.redirect ("http://localhost:5176" ++ "?error=" ++
        encodeURIComponent ((some "access_denied" : Option String).getD "")) :=
  ⟨(C6_callback_forwarding "http://localhost:5176" (some "abc") none).2.2.1 rfl rfl,
   (C6_callback_forwarding "http://localhost:5176" none (some "access_denied")).1 rfl⟩

/- ## C10 -/

/-- C10 as stated is false on the code: the header Basic xyz carries no
bearer token, yet the route extracts the second space separated word xyz
and contacts the provider with it instead of answering the local 401. -/
theorem C10_counterexample :
    carriesBearerToken (some "Basic xyz") = false ∧
    currentTrackHandler (some "Basic xyz") const401Provider ≠
      CurrentTrackResult.localUnauthorized := by
  exact ⟨rfl, by decide⟩

/-- C10 amended: when the Authorization header is absent, or its second
space separated component is missing or empty, the route answers the
local 401 and contacts no provider; a header whose second component is
nonempty is used as the bearer token whatever its scheme word is. -/
theorem C10_local_401 (auth : Option String) (provider : String → SpotifyApiResult)
    (h : extractToken auth = none) :
    currentTrackHandler auth provider = CurrentTrackResult.localUnauthorized := by
  unfold currentTrackHandler
  rw [h]

/-- Witness for C10 at an absent header. -/
theorem C10_local_401_witness :
    currentTrackHandler none const401Provider = CurrentTrackResult.localUnauthorized :=
  C10_local_401 none const401Provider rfl

/- ## C2 -/

/-- C2 is the intent of the spec but the code violates it: evaluated at a
200 provider payload whose item has an empty album.images array, the route
throws while reading the url field of the missing first image, lands in
the generic catch, and answers the error status 500 — it does not answer
a track with the other fields populated and the album art absent. -/
theorem C2_empty_album_images_crashes :
    buildTrackJson c2ExItem true = none ∧
    currentTrackHandler (some "Bearer AT") c2ExProvider =
      CurrentTrackResult.viaProvider "AT" (TrackResponse.errorStatus 500) := by
  exact ⟨rfl, rfl⟩

/- ## C5 -/

/-- C5: a refresh whose provider response omits refresh_token leaves the
previously stored refresh token unchanged: refreshAccessToken writes only
the access_token and token_expiry keys, on success and on failure. -/
theorem C5_refresh_preserves_refresh_token (s : SpotifyStore) (now : Nat)
    (r : RefreshResponse) (_h : r.refresh_token = none) :
    ((refreshAccessToken s now (some r)).2).refresh_token = s.refresh_token := by
  unfold refreshAccessToken
  rcases hs : s.refresh_token with _ | rt <;> simp [hs]

/-- Witness for C5 at a concrete store and a response carrying a new
access token and no refresh token. -/
theorem C5_refresh_preserves_refresh_token_witness :
    ((refreshAccessToken ⟨some "AT1", some "RT1", none, none⟩ 17
        (some ⟨"AT2", 3600, none⟩)).2).refresh_token = some "RT1" :=
  (C5_refresh_preserves_refresh_token ⟨some "AT1", some "RT1", none, none⟩ 17
    ⟨"AT2", 3600, none⟩ rfl).trans rfl

/- ## C9 -/

/-- Every branch of the try block issues its first currently-playing
request with the access token value passed in. -/
theorem gcpFetch_first_request (access_token : String) (s : SpotifyStore) (now : Nat)
    (refreshResp : Option RefreshResponse) (api : String → SpotifyApiResult) :
    (gcpFetch access_token s now refreshResp api).apiTokens.head? = some access_token := by
  rcases hapi : api access_token with ⟨st, d⟩ | st | _
  · simp [gcpFetch, hapi]
  · by_cases h401 : st = 401
    · subst h401
      rcases hr : refreshAccessToken s now refreshResp with ⟨res, s2⟩
      rcases res with m | newToken
      · simp [gcpFetch, hapi, hr]
      · rcases hapi2 : api newToken with _ | _ | _ <;> simp [gcpFetch, hapi, hr, hapi2]
    · simp [gcpFetch, hapi, h401]
  · simp [gcpFetch, hapi]

/-- C9: in getCurrentlyPlaying, when the stored expiry instant has passed
and the triggered refresh succeeds, the subsequent currently-playing
request is sent with the access token value read before the refresh, not
with the newly refreshed token, although the refreshed token is in the
store by then. -/
theorem C9_stale_token_after_refresh (s : SpotifyStore) (now : Nat) (r : RefreshResponse)
    (api : String → SpotifyApiResult) (at0 expiryStr rt : String) (n : Nat)
    (h1 : s.access_token = some at0)
    (h2 : s.token_expiry = some expiryStr)
    (h3 : jsParseInt expiryStr = some n)
    (h4 : n < now)
    (h5 : s.refresh_token = some rt) :
    (getCurrentlyPlaying s now (some r) api).apiTokens.head? = some at0 ∧
    (getCurrentlyPlaying s now (some r) api).store.access_token = some r.access_token ∧
    (r.access_token ≠ at0 →
      (getCurrentlyPlaying s now (some r) api).apiTokens.head? ≠ some r.access_token) := by
  have hexp : jsExpiryPassed now s.token_expiry = true := by
    rw [h2]
    simp [jsExpiryPassed, h3]
    omega
  have hrefresh : refreshAccessToken s now (some r) =
      (Except.ok r.access_token,
       { s with access_token := some r.access_token,
                token_expiry := some (toString (now + r.expires_in * 1000)) }) := by
    simp [refreshAccessToken, h5]
  have hmain : getCurrentlyPlaying s now (some r) api =
      gcpFetch at0
        { s with access_token := some r.access_token,
                 token_expiry := some (toString (now + r.expires_in * 1000)) }
        now (some r) api := by
    simp [getCurrentlyPlaying, h1, hexp, hrefresh]
  have hhead := gcpFetch_first_request at0
    { s with access_token := some r.access_token,
             token_expiry := some (toString (now + r.expires_in * 1000)) } now (some r) api
  refine ⟨hmain ▸ hhead, ?_, ?_⟩
  · rw [hmain]
    rcases hapi : api at0 with ⟨st, d⟩ | st | _
    · simp [gcpFetch, hapi]
    · by_cases h401 : st = 401
      · subst h401
        rcases hapi2 : api r.access_token with _ | _ | _ <;>
          simp [gcpFetch, hapi, refreshAccessToken, h5, hapi2]
      · simp [gcpFetch, hapi, h401]
    · simp [gcpFetch, hapi]
  · intro hne heq
    rw [hmain, hhead] at heq
    exact hne (Option.some.inj heq).symm

/-- Witness for C9: with an expired store, a refresh answering AT2, and a
provider accepting every request, the request goes out with the stale
token AT1 and not with AT2. -/
theorem C9_stale_token_after_refresh_witness :
    (getCurrentlyPlaying c9ExStore 2000 (some ⟨"AT2", 3600, none⟩) c9ExApi).apiTokens.head? =
      some "AT1" ∧
    (getCurrentlyPlaying c9ExStore 2000 (some ⟨"AT2", 3600, none⟩) c9ExApi).apiTokens.head? ≠
      some "AT2" := by
  have h := C9_stale_token_after_refresh c9ExStore 2000 ⟨"AT2", 3600, none⟩ c9ExApi
    "AT1" "1000" "RT1" 1000 rfl rfl rfl (by decide) rfl
  exact ⟨h.1, h.2.2 (by decide)⟩

/- ## C1 -/

/-- C1 as stated is false on the code: in getCurrentlyPlaying a protected
call answered 401 is followed by a refresh and a retry of the protected
call with the refreshed token — two requests go out — and afterwards the
durable store still holds an access token, the refresh token and the
verifier: nothing is cleared. -/
theorem C1_counterexample :
    c1ExApi "AT1" = SpotifyApiResult.httpError 401 ∧
    (getCurrentlyPlaying c1ExStore 0 (some c1ExRefresh) c1ExApi).apiTokens = ["AT1", "AT2"] ∧
    (getCurrentlyPlaying c1ExStore 0 (some c1ExRefresh) c1ExApi).store.access_token = some "AT2" ∧
    (getCurrentlyPlaying c1ExStore 0 (some c1ExRefresh) c1ExApi).store.refresh_token = some "RT1" ∧
    (getCurrentlyPlaying c1ExStore 0 (some c1ExRefresh) c1ExApi).store.code_verifier = some "V" :=
  ⟨rfl, rfl, rfl, rfl, rfl⟩

/-- C1 amended: the 401 handling of validateAndFetchTrack in App.tsx
transitions to the logged out state, clearing the durable access token and
the ephemeral verifier regardless of the prior state, with exactly one
protected call and no retry; getCurrentlyPlaying in utils/spotify.ts
instead reacts to a 401 by refreshing and retrying the protected call once
with the refreshed token, leaving the store populated. -/
theorem C1_401_clears_without_retry :
    (∀ (t : String) (s : ClientState),
      validateAndFetchTrack (some t) FetchOutcome.status401 s =
        ({ storedAccessToken := none, storedVerifier := none, accessToken := none,
           isAuthenticated := false, track := none }, 1)) ∧
    (∀ (s : SpotifyStore) (now : Nat) (at0 rt : String) (r : RefreshResponse)
        (api : String → SpotifyApiResult) (d : Option PlayingPayload),
      s.access_token = some at0 → s.token_expiry = none → s.refresh_token = some rt →
      api at0 = SpotifyApiResult.httpError 401 →
      api r.access_token = SpotifyApiResult.success 200 d →
      (getCurrentlyPlaying s now (some r) api).apiTokens = [at0, r.access_token] ∧
      (getCurrentlyPlaying s now (some r) api).store.access_token = some r.access_token ∧
      (getCurrentlyPlaying s now (some r) api).store.refresh_token = some rt ∧
      (getCurrentlyPlaying s now (some r) api).store.code_verifier = s.code_verifier) := by
  constructor
  · intro t s
    rfl
  · intro s now at0 rt r api d h1 h2 h3 hapi1 hapi2
    have hmain : getCurrentlyPlaying s now (some r) api = gcpFetch at0 s now (some r) api := by
      simp [getCurrentlyPlaying, h1, h2, jsExpiryPassed]
    rw [hmain]
    simp [gcpFetch, hapi1, refreshAccessToken, h3, hapi2]

/-- Witness for C1 at concrete states: a 401 wipes the App.tsx state with
one call, and the spotify.ts path retries with two calls. -/
theorem C1_401_clears_without_retry_witness :
    validateAndFetchTrack (some "AT") FetchOutcome.status401
        { storedAccessToken := some "AT", storedVerifier := some "V", accessToken := some "AT",
          isAuthenticated := true, track := none } =
      ({ storedAccessToken := none, storedVerifier := none, accessToken := none,
         isAuthenticated := false, track := none }, 1) ∧
    (getCurrentlyPlaying c1ExStore 5 (some c1ExRefresh) c1ExApi).apiTokens = ["AT1", "AT2"] := by
  refine ⟨C1_401_clears_without_retry.1 "AT" _, ?_⟩
  exact (C1_401_clears_without_retry.2 c1ExStore 5 "AT1" "RT1" c1ExRefresh c1ExApi
    (some ⟨none, false⟩) rfl rfl rfl rfl rfl).1

/- ## C8 -/

/-- The 401 branch of validateAndFetchTrack leaves the authenticated flag
clear whatever the token argument was. -/
theorem vaft_401_not_auth (token : Option String) (s : ClientState) :
    ((validateAndFetchTrack token FetchOutcome.status401 s).1).isAuthenticated = false := by
  cases token <;> rfl

/-- A state whose interval is clear keeps a clear interval under any event
that is not an authentication success. -/
theorem pollStep_keeps_timer_clear (p : PollState) (e : PollEvent)
    (hp : p.timerActive = false) (he : isAuthEvent e = false) :
    (pollStep p e).timerActive = false := by
  cases e with
  | tick outcome => simp [pollStep, hp]
  | authenticate t => simp [isAuthEvent] at he
  | disconnect => simp [pollStep, applyPollingEffect, clearAuth]
  | unmount => rfl

/-- Entering Invalid through a fired or unfired 401 poll, through
Disconnect, or tearing the component down always leaves the interval
clear. -/
theorem invalid_entry_timer_clear (p : PollState) (q : PollState) (hm : p.mounted = true)
    (hq : q = pollStep p (PollEvent.tick FetchOutcome.status401) ∨
          q = pollStep p PollEvent.disconnect ∨ q = pollStep p PollEvent.unmount) :
    q.timerActive = false := by
  rcases hq with hq | hq | hq <;> subst hq
  · by_cases hta : p.timerActive = true
    · simp [pollStep, hm, hta, applyPollingEffect, vaft_401_not_auth]
    · rw [Bool.not_eq_true] at hta
      simp [pollStep, hta]
  · simp [pollStep, applyPollingEffect, clearAuth]
  · rfl

/-- A clear interval stays clear along any event sequence that contains no
authentication success. -/
theorem foldl_keeps_timer_clear (evs : List PollEvent) :
    ∀ (q : PollState), q.timerActive = false → (∀ e ∈ evs, isAuthEvent e = false) →
      (List.foldl pollStep q evs).timerActive = false := by
  induction evs with
  | nil => intro q hq _; exact hq
  | cons e rest ih =>
      intro q hq hno
      rw [List.foldl_cons]
      exact ih (pollStep q e)
        (pollStep_keeps_timer_clear q e hq (hno e (List.mem_cons_self e rest)))
        (fun x hx => hno x (List.mem_cons_of_mem e hx))

/-- No tick fires from a state whose interval is clear. -/
theorem tickFires_of_timer_clear (p : PollState) (e : PollEvent)
    (hp : p.timerActive = false) : tickFires p e = false := by
  cases e <;> simp [tickFires, hp]

/-- C8: from every state in which the lifecycle transitions to Invalid —
through a 401 poll or Disconnect — or the component is torn down, the poll
interval is cleared, and along every subsequent event sequence containing
no new authentication no poll tick ever fires: there is no orphaned
recurring task. -/
theorem C8_no_ticks_after_invalid (p : PollState) (evs : List PollEvent) (q : PollState)
    (hm : p.mounted = true)
    (hq : q = pollStep p (PollEvent.tick FetchOutcome.status401) ∨
          q = pollStep p PollEvent.disconnect ∨ q = pollStep p PollEvent.unmount)
    (hno : ∀ e ∈ evs, isAuthEvent e = false) :
    q.timerActive = false ∧
    ∀ (i : Nat) (e : PollEvent), evs[i]? = some e →
      tickFires (List.foldl pollStep q (evs.take i)) e = false := by
  have hqt := invalid_entry_timer_clear p q hm hq
  refine ⟨hqt, fun i e _hi => ?_⟩
  have htake : ∀ x ∈ evs.take i, isAuthEvent x = false :=
    fun x hx => hno x (List.mem_of_mem_take hx)
  exact tickFires_of_timer_clear _ e (foldl_keeps_timer_clear (evs.take i) q hqt htake)

/-- Witness for C8: from a mounted, authenticated, polling state, a 401
poll clears the interval and the next tick of the trace does not fire. -/
theorem C8_no_ticks_after_invalid_witness :
    (pollStep c8ExState (PollEvent.tick FetchOutcome.status401)).timerActive = false ∧
    tickFires (List.foldl pollStep (pollStep c8ExState (PollEvent.tick FetchOutcome.status401))
        ([PollEvent.tick (FetchOutcome.ok true none), PollEvent.disconnect].take 1))
      PollEvent.disconnect = false := by
  have h := C8_no_ticks_after_invalid c8ExState
      [PollEvent.tick (FetchOutcome.ok true none), PollEvent.disconnect]
      (pollStep c8ExState (PollEvent.tick FetchOutcome.status401)) rfl (Or.inl rfl) ?_
  · exact ⟨h.1, h.2 1 PollEvent.disconnect rfl⟩
  · intro e he
    rcases List.mem_cons.mp he with h1 | h1
    · subst h1; rfl
    · rcases List.mem_cons.mp h1 with h2 | h2
      · subst h2; rfl
      · exact absurd h2 (List.not_mem_nil e)
